import Mathlib

set_option autoImplicit false

/-
Formal model of the WorkspaceFileResolver from src/include/LSP/WorkspaceFileResolver.hpp.

The header declares the resolver's data members and method signatures; the
methods with in-header bodies (the TextDocumentPtr special members and
isVirtualPath) are translated directly from that code.  Method bodies that the
repository does not provide (only their declarations appear in the header) are
modelled from the specification, as marked in each doc comment.

Modelling conventions:
  - URIs are represented by their normalised real-path strings (URI
    normalisation is an external boundary concern).
  - the filesystem is an explicit parameter `fs : FileSystem` mapping a real
    path to its contents when the file exists;
  - configuration files on disk are an explicit parameter `cfgs : ConfigFiles`
    mapping a directory (list of path segments, deepest first) to its local
    configuration layer when one exists;
  - the unordered_map members are association lists with `List.lookup`;
  - caching (configCache) and concurrency are not modelled: the claims below
    concern the resolved values, which caching must not change.
-/

/-- Boolean string-prefix test, modelling Luau::startsWith from Luau/StringUtils. -/
def luauStartsWith (str pre : String) : Bool :=
  pre.data.isPrefixOf str.data

/-- Typing-strictness modes of Luau::Config (external Luau/Config.h). -/
inductive Luau.Mode where
  | NoCheck
  | Nonstrict
  | Strict
  | Definition
deriving DecidableEq, Repr

/-- Modelled from the spec: ConfigEntry, the resolved configuration for one
directory — a typing strictness mode and an alias table (name → directory).
Other inherited settings are not needed by any claim. -/
structure Luau.Config where
  mode : Luau.Mode
  aliases : List (String × String)
deriving DecidableEq, Repr

/-- Modelled from the spec: a partial configuration value produced by the
external configuration-layer parser for one directory's config file.  Fields
the file does not specify are absent. -/
structure ConfigLayer where
  mode : Option Luau.Mode
  aliases : List (String × String)
deriving DecidableEq, Repr

/-- Modelled from the spec: merge a local configuration layer over the parent's
resolved configuration, field by field — child-local settings take precedence,
fields the child does not specify pass through unchanged.  For the alias table
the child's entries shadow the parent's per key (lookup is first-match). -/
def mergeConfig (parent : Luau.Config) (layer : ConfigLayer) : Luau.Config :=
  { mode := layer.mode.getD parent.mode
    aliases := layer.aliases ++ parent.aliases }

/-- An open text document as managed by the client (LSP/TextDocument.hpp,
external to the specified header): normalised URI, language id, version
counter and text content. -/
structure TextDocument where
  uri : String
  languageId : String
  version : Nat
  content : String
deriving DecidableEq, Repr

/-- A node of the parsed Rojo sourcemap tree (LSP/Sourcemap.hpp, modelled from
the spec): a name, a class tag, the associated real filesystem paths, the
fully-qualified virtual path (assigned at tree-build time) and the children. -/
inductive SourceNode where
  | mk (name className : String) (filePaths : List String) (virtualPath : String)
      (children : List SourceNode)

def SourceNode.name : SourceNode → String
  | .mk n _ _ _ _ => n

def SourceNode.className : SourceNode → String
  | .mk _ c _ _ _ => c

def SourceNode.filePaths : SourceNode → List String
  | .mk _ _ f _ _ => f

def SourceNode.virtualPath : SourceNode → String
  | .mk _ _ _ v _ => v

def SourceNode.children : SourceNode → List SourceNode
  | .mk _ _ _ _ ch => ch

mutual
/-- Modelled from the spec: the tree-build-time assignment of virtual paths —
each visited node's virtual path is `parent.virtualPath ++ "/" ++ node.name`,
the root's virtual path is the given base token. -/
def annotate : SourceNode → String → SourceNode
  | .mk n c f _ ch, base => .mk n c f base (annotateList ch base)

def annotateList : List SourceNode → String → List SourceNode
  | [], _ => []
  | t :: ts, base => annotate t (base ++ "/" ++ t.name) :: annotateList ts base
end

mutual
/-- All nodes of a sourcemap tree, in depth-first pre-order. -/
def allNodes : SourceNode → List SourceNode
  | .mk n c f v ch => .mk n c f v ch :: allNodesList ch

def allNodesList : List SourceNode → List SourceNode
  | [] => []
  | t :: ts => allNodes t ++ allNodesList ts
end

/-- A require-call argument expression, as far as the resolver inspects it
(Luau::AstExpr, external): a literal string, or some computed expression. -/
inductive AstExpr where
  | constantString (value : String)
  | indexName (expr : AstExpr) (index : String)
  | call (func : AstExpr)
  | localRef (name : String)

/-- Result of module resolution (Luau::ModuleInfo, external): the resolved
module name. -/
structure ModuleInfo where
  name : String
deriving DecidableEq, Repr

/-- The filesystem boundary: contents of the file at a real path, when it exists. -/
abbrev FileSystem := String → Option String

/-- The configuration-file boundary: the parsed local configuration layer of a
directory (segments listed deepest first), when one exists. -/
abbrev ConfigFiles := List String → Option ConfigLayer

/-- State of the WorkspaceFileResolver (data members of the struct, lines
74-92 of the header).  The client handle, plugin info and config cache are
omitted: no claim depends on them. -/
structure WorkspaceFileResolver where
  defaultConfig : Luau.Config
  rootSourceNode : Option SourceNode
  realPathsToSourceNodes : List (String × SourceNode)
  virtualPathsToSourceNodes : List (String × SourceNode)
  managedFiles : List (String × TextDocument)

/-- Default constructor (header lines 94-97): sets the default configuration
mode to Nonstrict; all containers start empty, the alias table of the default
Luau::Config is empty. -/
def WorkspaceFileResolver.new : WorkspaceFileResolver :=
  { defaultConfig := { mode := Luau.Mode.Nonstrict, aliases := [] }
    rootSourceNode := none
    realPathsToSourceNodes := []
    virtualPathsToSourceNodes := []
    managedFiles := [] }

/-- Direct translation of isVirtualPath (header lines 113-116): the name points
to a virtual path iff it is game or ProjectRoot or starts with game/ or
ProjectRoot/. -/
def WorkspaceFileResolver.isVirtualPath (name : String) : Bool :=
  name == "game" || name == "ProjectRoot" ||
    luauStartsWith name "game/" || luauStartsWith name "ProjectRoot/"

/-- Modelled from the spec: overlay lookup by normalised document URI
(getTextDocument, header line 107). -/
def WorkspaceFileResolver.getTextDocument (s : WorkspaceFileResolver) (uri : String) :
    Option TextDocument :=
  List.lookup uri s.managedFiles

/-- Modelled from the spec: virtual-path index lookup (header line 124). -/
def WorkspaceFileResolver.getSourceNodeFromVirtualPath (s : WorkspaceFileResolver)
    (name : String) : Option SourceNode :=
  List.lookup name s.virtualPathsToSourceNodes

/-- Modelled from the spec: real-path index lookup (header line 126). -/
def WorkspaceFileResolver.getSourceNodeFromRealPath (s : WorkspaceFileResolver)
    (name : String) : Option SourceNode :=
  List.lookup name s.realPathsToSourceNodes

/-- Modelled from the spec: a node's first associated real path, nothing for
structural (folder-only) nodes (header line 128). -/
def WorkspaceFileResolver.getRealPathFromSourceNode (sourceNode : SourceNode) :
    Option String :=
  sourceNode.filePaths.head?

/-- Modelled from the spec: the precomputed virtual path attribute of a node
(header line 129); never recomputed by walking parents. -/
def WorkspaceFileResolver.getVirtualPathFromSourceNode (sourceNode : SourceNode) : String :=
  sourceNode.virtualPath

/-- Modelled from the spec: getModuleName (header lines 120-122) — normalise
the URI to a real path; if the sourcemap index has a node for it return its
virtual path, otherwise return the real path itself, verbatim. -/
def WorkspaceFileResolver.getModuleName (s : WorkspaceFileResolver) (uri : String) : String :=
  match s.getSourceNodeFromRealPath uri with
  | some node => WorkspaceFileResolver.getVirtualPathFromSourceNode node
  | none => uri

/-- Modelled from the spec: resolveToVirtualPath (header line 131) — attempt a
direct real-path lookup in the sourcemap index; on a miss, if the name is
already a virtual-scheme string, return it unchanged. -/
def WorkspaceFileResolver.resolveToVirtualPath (s : WorkspaceFileResolver)
    (name : String) : Option String :=
  match s.getSourceNodeFromRealPath name with
  | some node => some (WorkspaceFileResolver.getVirtualPathFromSourceNode node)
  | none => if WorkspaceFileResolver.isVirtualPath name then some name else none

/-- Modelled from the spec: resolveToRealPath (header line 133) — if the name
is virtual, look up the sourcemap index and return the node's real path if it
carries one (nothing for structural-only nodes); if not virtual, return the
name interpreted directly as a path, only if it exists on disk or is open in
the document overlay. -/
def WorkspaceFileResolver.resolveToRealPath (s : WorkspaceFileResolver) (fs : FileSystem)
    (name : String) : Option String :=
  if WorkspaceFileResolver.isVirtualPath name then
    match s.getSourceNodeFromVirtualPath name with
    | some node => WorkspaceFileResolver.getRealPathFromSourceNode node
    | none => none
  else
    if (fs name).isSome || (s.getTextDocument name).isSome then some name else none

/-- Modelled from the spec: getTextDocumentFromModuleName (header line 108) —
the managed document matching the module's resolved real path, or the one
matching the name itself as a URI. -/
def WorkspaceFileResolver.getTextDocumentFromModuleName (s : WorkspaceFileResolver)
    (fs : FileSystem) (name : String) : Option TextDocument :=
  ((s.resolveToRealPath fs name).bind fun realPath => s.getTextDocument realPath).or
    (s.getTextDocument name)

/-- Modelled from the spec: readSource (header line 135) — order of precedence
is document overlay (by resolved real path or URI), then disk read via
resolveToRealPath; an explicit empty result (never an exception) when neither
source exists.  Only the source text is modelled; the accompanying script-type
classification is not needed by any claim. -/
def WorkspaceFileResolver.readSource (s : WorkspaceFileResolver) (fs : FileSystem)
    (name : String) : Option String :=
  match s.getTextDocumentFromModuleName fs name with
  | some document => some document.content
  | none =>
    match s.resolveToRealPath fs name with
    | some realPath => fs realPath
    | none => none

/-- Split a path string into segments. -/
def splitPath (p : String) : List String :=
  p.splitOn "/"

/-- Join path segments back into a path string. -/
def joinPath (segs : List String) : String :=
  String.intercalate "/" segs

/-- Collapse single-dot and dot-dot segments of a path, left to right. -/
def collapseDots (segs : List String) : List String :=
  segs.foldl
    (fun acc seg =>
      if seg = "." then acc else if seg = ".." then acc.dropLast else acc ++ [seg])
    []

/-- Modelled from the spec: the directory of a real path — its segments minus
the final file name, listed deepest first (ancestors are the suffixes). -/
def dirOfRealPath (p : String) : List String :=
  ((splitPath p).dropLast).reverse

/-- Modelled from the spec: readConfigRec (header line 144) — resolve the
parent directory's configuration (the baseline at the root boundary), then
merge this directory's local layer over it, if one exists.  Memoisation in
configCache is omitted: it does not change the resolved value. -/
def WorkspaceFileResolver.readConfigRec (s : WorkspaceFileResolver) (cfgs : ConfigFiles) :
    List String → Luau.Config
  | [] => s.defaultConfig
  | d :: ds =>
    match cfgs (d :: ds) with
    | some layer => mergeConfig (s.readConfigRec cfgs ds) layer
    | none => s.readConfigRec cfgs ds

/-- Modelled from the spec: getConfig (header line 142) — resolve the module
to a real path and walk its directory ancestry; the default configuration when
the module has no resolvable directory.  Total: it never fails. -/
def WorkspaceFileResolver.getConfig (s : WorkspaceFileResolver) (fs : FileSystem)
    (cfgs : ConfigFiles) (name : String) : Luau.Config :=
  match s.resolveToRealPath fs name with
  | some realPath => s.readConfigRec cfgs (dirOfRealPath realPath)
  | none => s.defaultConfig

/-- Directory ancestry key of a module: the directory of its resolved real
path, or the root boundary when it has none. -/
def WorkspaceFileResolver.moduleDirectory (s : WorkspaceFileResolver) (fs : FileSystem)
    (name : String) : List String :=
  match s.resolveToRealPath fs name with
  | some realPath => dirOfRealPath realPath
  | none => []

/-- Modelled from the spec: resolveStringRequire (header line 137), the
require-path grammar — (a) a relative path beginning with a dot-segment,
resolved against the context module's containing directory with dot segments
collapsed and re-validated against the indices and the disk; (b) an alias
reference, looked up in the effective configuration of the context module's
directory; (c) otherwise an absolute virtual-root-relative path resolved
against the sourcemap index.  Unresolvable when no form matches. -/
def WorkspaceFileResolver.resolveStringRequire (s : WorkspaceFileResolver) (fs : FileSystem)
    (cfgs : ConfigFiles) (context : Option ModuleInfo) (requiredString : String) :
    Option ModuleInfo :=
  if luauStartsWith requiredString "./" || luauStartsWith requiredString "../" then
    match context with
    | none => none
    | some contextModule =>
      let baseDir := (splitPath contextModule.name).dropLast
      let resolvedName := joinPath (collapseDots (baseDir ++ splitPath requiredString))
      if (s.getSourceNodeFromVirtualPath resolvedName).isSome ||
          (s.getSourceNodeFromRealPath resolvedName).isSome || (fs resolvedName).isSome then
        some { name := resolvedName }
      else
        none
  else if luauStartsWith requiredString "@" then
    match splitPath requiredString with
    | [] => none
    | aliasToken :: rest =>
      let config := s.getConfig fs cfgs ((context.map ModuleInfo.name).getD "")
      match List.lookup aliasToken config.aliases with
      | some target => some { name := joinPath (splitPath target ++ rest) }
      | none => none
  else
    match s.getSourceNodeFromVirtualPath requiredString with
    | some _ => some { name := requiredString }
    | none => none

/-- Modelled from the spec: resolveModule (header line 138) — if the
require-call argument is a literal string, delegate to resolveStringRequire;
any non-literal (computed) argument resolves to unknown, never a best-effort
guess and never a crash. -/
def WorkspaceFileResolver.resolveModule (s : WorkspaceFileResolver) (fs : FileSystem)
    (cfgs : ConfigFiles) (context : Option ModuleInfo) (node : AstExpr) :
    Option ModuleInfo :=
  match node with
  | AstExpr.constantString value => s.resolveStringRequire fs cfgs context value
  | AstExpr.indexName _ _ => none
  | AstExpr.call _ => none
  | AstExpr.localRef _ => none

/-- Modelled from the spec: the configured project-root token assigned to the
sourcemap root — the DataModel root token, or the ProjectRoot alias. -/
def rootVirtualName (root : SourceNode) : String :=
  if root.className == "DataModel" then "game" else "ProjectRoot"

/-- Modelled from the spec: writePathsToMap (header line 148) — one traversal
assigning virtual paths and producing every virtual-index entry and every
real-index entry of the subtree. -/
def writePathsToMap (node : SourceNode) (base : String) :
    List (String × SourceNode) × List (String × SourceNode) :=
  let annotated := annotate node base
  ((allNodes annotated).map fun n => (n.virtualPath, n),
    (allNodes annotated).flatMap fun n => n.filePaths.map fun p => (p, n))

/-- Modelled from the spec: updateSourceMap (header line 150) — parse the
sourcemap contents with the external ingestion function; on parse failure the
call is fatal and the old tree and indices are retained unchanged; on success
the root is replaced wholesale and both indices are rebuilt from scratch,
discarding all prior entries. -/
def WorkspaceFileResolver.updateSourceMap (parseSourceMap : String → Option SourceNode)
    (s : WorkspaceFileResolver) (sourceMapContents : String) : WorkspaceFileResolver :=
  match parseSourceMap sourceMapContents with
  | none => s
  | some root =>
    { s with
      rootSourceNode := some (annotate root (rootVirtualName root))
      virtualPathsToSourceNodes := (writePathsToMap root (rootVirtualName root)).1
      realPathsToSourceNodes := (writePathsToMap root (rootVirtualName root)).2 }

/-
Helper lemmas shared by the claim theorems.
-/

theorem lookup_eq_some_of_mem_nodup {α β : Type} [BEq α] [LawfulBEq α]
    {l : List (α × β)} {k : α} {v : β}
    (hnd : (l.map Prod.fst).Nodup) (hm : (k, v) ∈ l) : List.lookup k l = some v := by
  induction l with
  | nil => simp at hm
  | cons hd tl ih =>
    obtain ⟨k', v'⟩ := hd
    simp only [List.map_cons, List.nodup_cons] at hnd
    rcases List.mem_cons.mp hm with h | h
    · injection h with h1 h2
      subst h1; subst h2
      simp [List.lookup]
    · have hne : (k == k') = false := by
        refine beq_eq_false_iff_ne.mpr ?_
        rintro rfl
        exact hnd.1 (List.mem_map.mpr ⟨(k, v), h, rfl⟩)
      simpa [List.lookup, hne] using ih hnd.2 h

theorem lookup_eq_none_of_not_mem_keys {α β : Type} [BEq α] [LawfulBEq α]
    {l : List (α × β)} {k : α} (h : k ∉ l.map Prod.fst) : List.lookup k l = none := by
  induction l with
  | nil => rfl
  | cons hd tl ih =>
    obtain ⟨k', v'⟩ := hd
    simp only [List.map_cons, List.mem_cons, not_or] at h
    have hne : (k == k') = false := beq_eq_false_iff_ne.mpr h.1
    simpa [List.lookup, hne] using ih h.2

theorem lookup_append {α β : Type} [BEq α] (l₁ l₂ : List (α × β)) (k : α) :
    List.lookup k (l₁ ++ l₂) = (List.lookup k l₁).or (List.lookup k l₂) := by
  induction l₁ with
  | nil => simp [List.lookup]
  | cons hd tl ih =>
    obtain ⟨k', v'⟩ := hd
    by_cases hk : (k == k') = true
    · simp [List.lookup, hk]
    · simp only [Bool.not_eq_true] at hk
      simp [List.lookup, hk, ih]

theorem luauStartsWith_iff (str pre : String) :
    luauStartsWith str pre = true ↔ ∃ rest, str = pre ++ rest := by
  unfold luauStartsWith
  rw [List.isPrefixOf_iff_prefix]
  constructor
  · rintro ⟨t, ht⟩
    refine ⟨String.mk t, String.ext ?_⟩
    rw [String.data_append]
    exact ht.symm
  · rintro ⟨rest, rfl⟩
    rw [String.data_append]
    exact List.prefix_append _ _

theorem luauStartsWith_append (pre rest : String) :
    luauStartsWith (pre ++ rest) pre = true :=
  (luauStartsWith_iff _ _).mpr ⟨rest, rfl⟩

mutual
theorem vp_annotate (t : SourceNode) (base : String) :
    ∀ n ∈ allNodes (annotate t base),
      n.virtualPath = base ∨ ∃ rest, n.virtualPath = base ++ "/" ++ rest := by
  match t with
  | .mk nm c f v ch =>
    intro n hn
    simp only [annotate, allNodes, List.mem_cons] at hn
    rcases hn with h | h
    · left; simp [h, SourceNode.virtualPath]
    · exact vp_annotateList ch base n h

theorem vp_annotateList (ts : List SourceNode) (base : String) :
    ∀ n ∈ allNodesList (annotateList ts base),
      n.virtualPath = base ∨ ∃ rest, n.virtualPath = base ++ "/" ++ rest := by
  match ts with
  | [] => intro n hn; simp [annotateList, allNodesList] at hn
  | t :: ts' =>
    intro n hn
    simp only [annotateList, allNodesList, List.mem_append] at hn
    rcases hn with h | h
    · rcases vp_annotate t (base ++ "/" ++ t.name) n h with h' | ⟨rest, h'⟩
      · right; exact ⟨t.name, h'⟩
      · right; exact ⟨t.name ++ "/" ++ rest, by rw [h']; simp [String.append_assoc]⟩
    · exact vp_annotateList ts' base n h
end

theorem rootVirtualName_cases (root : SourceNode) :
    rootVirtualName root = "game" ∨ rootVirtualName root = "ProjectRoot" := by
  unfold rootVirtualName
  split <;> simp

theorem isVirtualPath_append_root (tok rest : String)
    (htok : tok = "game" ∨ tok = "ProjectRoot") :
    WorkspaceFileResolver.isVirtualPath (tok ++ "/" ++ rest) = true := by
  rcases htok with rfl | rfl
  · have h : ("game" ++ "/" ++ rest : String) = "game/" ++ rest := by
      rw [show ("game" ++ "/" : String) = "game/" from rfl]
    rw [h]
    simp [WorkspaceFileResolver.isVirtualPath, luauStartsWith_append]
  · have h : ("ProjectRoot" ++ "/" ++ rest : String) = "ProjectRoot/" ++ rest := by
      rw [show ("ProjectRoot" ++ "/" : String) = "ProjectRoot/" from rfl]
    rw [h]
    simp [WorkspaceFileResolver.isVirtualPath, luauStartsWith_append]

theorem isVirtualPath_of_mem_annotate (root : SourceNode) (n : SourceNode)
    (hn : n ∈ allNodes (annotate root (rootVirtualName root))) :
    WorkspaceFileResolver.isVirtualPath n.virtualPath = true := by
  rcases vp_annotate root (rootVirtualName root) n hn with h | ⟨rest, h⟩
  · rw [h]
    rcases rootVirtualName_cases root with h2 | h2 <;> rw [h2] <;> decide
  · rw [h]
    exact isVirtualPath_append_root _ _ (rootVirtualName_cases root)

theorem virtual_keys (a : SourceNode) :
    (((allNodes a).map fun n => (n.virtualPath, n)).map Prod.fst)
      = (allNodes a).map SourceNode.virtualPath := by
  rw [List.map_map]
  rfl

theorem real_keys (a : SourceNode) :
    (((allNodes a).flatMap fun n => n.filePaths.map fun p => (p, n)).map Prod.fst)
      = (allNodes a).flatMap SourceNode.filePaths := by
  rw [List.map_flatMap]
  congr 1
  funext n
  rw [List.map_map]
  show List.map (fun p => p) n.filePaths = n.filePaths
  simp

theorem updateSourceMap_indices (parseSourceMap : String → Option SourceNode)
    (s : WorkspaceFileResolver) (contents : String) (root : SourceNode)
    (hparse : parseSourceMap contents = some root) :
    (WorkspaceFileResolver.updateSourceMap parseSourceMap s contents).virtualPathsToSourceNodes
        = ((allNodes (annotate root (rootVirtualName root))).map fun n => (n.virtualPath, n)) ∧
      (WorkspaceFileResolver.updateSourceMap parseSourceMap s contents).realPathsToSourceNodes
        = ((allNodes (annotate root (rootVirtualName root))).flatMap
            fun n => n.filePaths.map fun p => (p, n)) := by
  unfold WorkspaceFileResolver.updateSourceMap
  rw [hparse]
  exact ⟨rfl, rfl⟩

theorem getSourceNodeFromVirtualPath_after_update
    (parseSourceMap : String → Option SourceNode) (s : WorkspaceFileResolver)
    (contents : String) (root : SourceNode)
    (hparse : parseSourceMap contents = some root)
    (hvnd : ((allNodes (annotate root (rootVirtualName root))).map SourceNode.virtualPath).Nodup) :
    ∀ n ∈ allNodes (annotate root (rootVirtualName root)),
      (WorkspaceFileResolver.updateSourceMap parseSourceMap s contents).getSourceNodeFromVirtualPath
        n.virtualPath = some n := by
  intro n hn
  unfold WorkspaceFileResolver.getSourceNodeFromVirtualPath
  rw [(updateSourceMap_indices parseSourceMap s contents root hparse).1]
  apply lookup_eq_some_of_mem_nodup
  · rw [virtual_keys]; exact hvnd
  · exact List.mem_map.mpr ⟨n, hn, rfl⟩

theorem getSourceNodeFromRealPath_after_update
    (parseSourceMap : String → Option SourceNode) (s : WorkspaceFileResolver)
    (contents : String) (root : SourceNode)
    (hparse : parseSourceMap contents = some root)
    (hrnd : ((allNodes (annotate root (rootVirtualName root))).flatMap SourceNode.filePaths).Nodup) :
    ∀ n ∈ allNodes (annotate root (rootVirtualName root)), ∀ p ∈ n.filePaths,
      (WorkspaceFileResolver.updateSourceMap parseSourceMap s contents).getSourceNodeFromRealPath
        p = some n := by
  intro n hn p hp
  unfold WorkspaceFileResolver.getSourceNodeFromRealPath
  rw [(updateSourceMap_indices parseSourceMap s contents root hparse).2]
  apply lookup_eq_some_of_mem_nodup
  · rw [real_keys]; exact hrnd
  · exact List.mem_flatMap.mpr ⟨n, hn, List.mem_map.mpr ⟨p, hp, rfl⟩⟩

theorem readConfigRec_of_no_configs (s : WorkspaceFileResolver) (cfgs : ConfigFiles)
    (d : List String) (h : ∀ ds, ds <:+ d → cfgs ds = none) :
    s.readConfigRec cfgs d = s.defaultConfig := by
  induction d with
  | nil => rfl
  | cons seg ds ih =>
    unfold WorkspaceFileResolver.readConfigRec
    rw [h (seg :: ds) (List.suffix_refl _)]
    exact ih fun ds' hds' => h ds' (hds'.trans (List.suffix_cons seg ds))

/-
Model of TextDocumentPtr (header lines 20-69).  The underlying TextDocument is
identified by a heap id (a Nat); `none` models a null pointer.  The special
members are translated directly from the in-header code.
-/

/-- Wrapper around a text document pointer (header lines 20-25): the pointed-to
document (none models nullptr) and the isTemporary flag. -/
structure TextDocumentPtr where
  document : Option Nat
  isTemporary : Bool
deriving DecidableEq, Repr

/-- Constructor from an existing document pointer (header lines 27-30):
borrowed, isTemporary stays false. -/
def TextDocumentPtr.fromDocument (document : Option Nat) : TextDocumentPtr :=
  { document := document, isTemporary := false }

/-- Constructor from uri, languageId and content (header lines 32-36): a new
TextDocument is allocated (identified by the fresh id `newDoc`) and the wrapper
is marked temporary. -/
def TextDocumentPtr.fromContent (newDoc : Nat) : TextDocumentPtr :=
  { document := some newDoc, isTemporary := true }

/-- Conversion to bool (header lines 38-41): true iff the document pointer is
non-null. -/
def TextDocumentPtr.toBool (p : TextDocumentPtr) : Bool :=
  p.document.isSome

/-- Destructor effect (header lines 48-52): the document deleted when the
wrapper is destroyed — the pointed-to document when isTemporary holds, nothing
otherwise. -/
def TextDocumentPtr.destructorDeletes (p : TextDocumentPtr) : Option Nat :=
  if p.isTemporary then p.document else none

/-- Move constructor (header lines 57-61): std::exchange moves the document
pointer and the isTemporary flag into the constructed object and leaves the
source with a null pointer and a cleared flag.  Result: (constructed object,
moved-from source). -/
def TextDocumentPtr.moveCtor (other : TextDocumentPtr) :
    TextDocumentPtr × TextDocumentPtr :=
  ({ document := other.document, isTemporary := other.isTemporary },
    { document := none, isTemporary := false })

/-- Move assignment (header lines 63-68): std::swap exchanges the document
pointers and the isTemporary flags of the two objects.  Result: (assigned-to
object after, assigned-from object after). -/
def TextDocumentPtr.moveAssign (self other : TextDocumentPtr) :
    TextDocumentPtr × TextDocumentPtr :=
  ({ document := other.document, isTemporary := other.isTemporary },
    { document := self.document, isTemporary := self.isTemporary })

/-- Ownership of document `d`: the wrapper will delete `d` on destruction. -/
def TextDocumentPtr.ownsDoc (p : TextDocumentPtr) (d : Nat) : Bool :=
  p.document == some d && p.isTemporary

/-- Number of owners of document `d` among a pair of wrappers. -/
def ownersInPair (p q : TextDocumentPtr) (d : Nat) : Nat :=
  (if p.ownsDoc d then 1 else 0) + (if q.ownsDoc d then 1 else 0)

/-- Number of times document `d` is deleted when both wrappers are destroyed. -/
def deleteCountInPair (p q : TextDocumentPtr) (d : Nat) : Nat :=
  (if p.destructorDeletes = some d then 1 else 0) +
    (if q.destructorDeletes = some d then 1 else 0)

/-
Claim theorems.
-/

/-- Claim C10, counterexample.  The claim asserts that after move-assignment
from a TextDocumentPtr, exactly one of the two objects is owning.  This fails:
move-assigning between two borrowed (non-temporary) wrappers — the ordinary
state for managed documents — leaves neither object owning, so neither deletes
anything on destruction. -/
theorem textDocumentPtr_exactly_one_owner_false :
    ¬ ((((TextDocumentPtr.fromDocument (some 0)).moveAssign
            (TextDocumentPtr.fromDocument (some 1))).1.destructorDeletes ≠ none ∧
          ((TextDocumentPtr.fromDocument (some 0)).moveAssign
            (TextDocumentPtr.fromDocument (some 1))).2.destructorDeletes = none) ∨
        (((TextDocumentPtr.fromDocument (some 0)).moveAssign
            (TextDocumentPtr.fromDocument (some 1))).1.destructorDeletes = none ∧
          ((TextDocumentPtr.fromDocument (some 0)).moveAssign
            (TextDocumentPtr.fromDocument (some 1))).2.destructorDeletes ≠ none)) := by
  decide

/-- Claim C10, amended.  A TextDocumentPtr deletes its underlying document on
destruction iff its temporary flag is set; a wrapper constructed from an
existing pointer never deletes, one constructed from uri/languageId/content
deletes the document it allocated; move construction transfers the document
pointer and flag and leaves the source null, non-owning and converting to
false; move assignment exchanges the two objects' documents and flags; hence
the number of owners of any document among the two objects involved in a move
is unchanged, and whenever a document has at most one owner it is deleted at
most once. -/
theorem textDocumentPtr_ownership (p q : TextDocumentPtr) (d : Nat) :
    (TextDocumentPtr.moveCtor p).1 = { document := p.document, isTemporary := p.isTemporary } ∧
      (TextDocumentPtr.moveCtor p).2.document = none ∧
      (TextDocumentPtr.moveCtor p).2.toBool = false ∧
      (TextDocumentPtr.moveCtor p).2.destructorDeletes = none ∧
      TextDocumentPtr.moveAssign p q = (q, p) ∧
      (TextDocumentPtr.fromDocument p.document).destructorDeletes = none ∧
      (TextDocumentPtr.fromContent d).destructorDeletes = some d ∧
      ownersInPair (TextDocumentPtr.moveCtor p).1 (TextDocumentPtr.moveCtor p).2 d
        = (if p.ownsDoc d then 1 else 0) ∧
      ownersInPair (TextDocumentPtr.moveAssign p q).1 (TextDocumentPtr.moveAssign p q).2 d
        = ownersInPair p q d ∧
      deleteCountInPair p q d = ownersInPair p q d ∧
      (ownersInPair p q d ≤ 1 → deleteCountInPair p q d ≤ 1) := by
  obtain ⟨pd, pt⟩ := p
  obtain ⟨qd, qt⟩ := q
  refine ⟨rfl, rfl, rfl, rfl, rfl, rfl, rfl, ?_, ?_, ?_, ?_⟩
  all_goals
    cases pt <;> cases qt <;>
      simp [ownersInPair, deleteCountInPair, TextDocumentPtr.ownsDoc,
        TextDocumentPtr.destructorDeletes, TextDocumentPtr.moveCtor,
        TextDocumentPtr.moveAssign, beq_iff_eq] <;>
      split_ifs <;> simp_all

/-- Claim C10, amended, witness at a concrete input: a temporary wrapper for
document 7 paired with a borrowed wrapper for the same document — one owner,
so document 7 is deleted at most once. -/
theorem textDocumentPtr_ownership_witness :
    deleteCountInPair (TextDocumentPtr.fromContent 7)
        (TextDocumentPtr.fromDocument (some 7)) 7 ≤ 1 :=
  (textDocumentPtr_ownership (TextDocumentPtr.fromContent 7)
    (TextDocumentPtr.fromDocument (some 7)) 7).2.2.2.2.2.2.2.2.2.2 (by decide)

/-- Claim C6: isVirtualPath holds exactly for the two virtual-root tokens
"game" and "ProjectRoot" and the names starting with one of them followed by
the path separator. -/
theorem isVirtualPath_iff (name : String) :
    WorkspaceFileResolver.isVirtualPath name = true ↔
      name = "game" ∨ name = "ProjectRoot" ∨
        (∃ rest, name = "game/" ++ rest) ∨ (∃ rest, name = "ProjectRoot/" ++ rest) := by
  unfold WorkspaceFileResolver.isVirtualPath
  simp only [Bool.or_eq_true, beq_iff_eq, luauStartsWith_iff]
  tauto

/-- Claim C9: if the sourcemap contents fail to parse, updateSourceMap leaves
the resolver's state — the root source node and both path indices — unchanged. -/
theorem updateSourceMap_parse_failure_unchanged
    (parseSourceMap : String → Option SourceNode) (s : WorkspaceFileResolver)
    (sourceMapContents : String) (hparse : parseSourceMap sourceMapContents = none) :
    WorkspaceFileResolver.updateSourceMap parseSourceMap s sourceMapContents = s := by
  unfold WorkspaceFileResolver.updateSourceMap
  rw [hparse]

/-- Claim C9, witness: a concrete resolver state survives a failing parse
unchanged. -/
theorem updateSourceMap_parse_failure_unchanged_witness :
    WorkspaceFileResolver.updateSourceMap (fun _ => none) WorkspaceFileResolver.new
        "not a sourcemap" = WorkspaceFileResolver.new :=
  updateSourceMap_parse_failure_unchanged (fun _ => none) WorkspaceFileResolver.new
    "not a sourcemap" rfl

/-- Claim C8: resolveModule delegates to string-require resolution exactly when
the require argument is a literal string; every non-literal argument resolves
to none (unresolved), never a guess. -/
theorem resolveModule_literal_dispatch (s : WorkspaceFileResolver) (fs : FileSystem)
    (cfgs : ConfigFiles) (context : Option ModuleInfo) :
    (∀ value, s.resolveModule fs cfgs context (AstExpr.constantString value)
        = s.resolveStringRequire fs cfgs context value) ∧
      (∀ node : AstExpr, (∀ value, node ≠ AstExpr.constantString value) →
        s.resolveModule fs cfgs context node = none) := by
  refine ⟨fun value => rfl, fun node h => ?_⟩
  cases node with
  | constantString value => exact absurd rfl (h value)
  | indexName e i => rfl
  | call f => rfl
  | localRef n => rfl

/-- Claim C8, witness: a computed argument resolves to none; a literal string
argument goes through resolveStringRequire. -/
theorem resolveModule_literal_dispatch_witness :
    WorkspaceFileResolver.resolveModule WorkspaceFileResolver.new (fun _ => none)
        (fun _ => none) none (AstExpr.call (AstExpr.localRef "getModulePath")) = none ∧
      WorkspaceFileResolver.resolveModule WorkspaceFileResolver.new (fun _ => none)
          (fun _ => none) none (AstExpr.constantString "game/Foo")
        = WorkspaceFileResolver.resolveStringRequire WorkspaceFileResolver.new
            (fun _ => none) (fun _ => none) none "game/Foo" :=
  ⟨(resolveModule_literal_dispatch WorkspaceFileResolver.new (fun _ => none)
      (fun _ => none) none).2 (AstExpr.call (AstExpr.localRef "getModulePath"))
      (fun _ h => AstExpr.noConfusion h),
    (resolveModule_literal_dispatch WorkspaceFileResolver.new (fun _ => none)
      (fun _ => none) none).1 "game/Foo"⟩

/-
Concrete fixtures used by the witnesses: the spec's scenario of a sourcemap
declaring ProjectRoot/Foo (here under the DataModel root "game") backed by
src/Foo.luau, with the file open in the editor holding unsaved content
"return 1" while disk holds "return 2".
-/

/-- Example managed document: src/Foo.luau open with unsaved content. -/
def exampleDoc : TextDocument :=
  { uri := "src/Foo.luau", languageId := "luau", version := 1, content := "return 1" }

/-- Example sourcemap node for Foo, annotated with its virtual path. -/
def exampleFooNode : SourceNode :=
  SourceNode.mk "Foo" "ModuleScript" ["src/Foo.luau"] "ProjectRoot/Foo" []

/-- Example resolver state: Foo indexed under both schemes, and open in the
editor. -/
def exampleResolver : WorkspaceFileResolver :=
  { defaultConfig := { mode := Luau.Mode.Nonstrict, aliases := [] }
    rootSourceNode := some exampleFooNode
    realPathsToSourceNodes := [("src/Foo.luau", exampleFooNode)]
    virtualPathsToSourceNodes := [("ProjectRoot/Foo", exampleFooNode)]
    managedFiles := [("src/Foo.luau", exampleDoc)] }

/-- Example filesystem: src/Foo.luau exists on disk with stale content. -/
def exampleFs : FileSystem :=
  fun p => if p = "src/Foo.luau" then some "return 2" else none

/-- Example unparsed sourcemap tree: a DataModel root containing Foo. -/
def exampleTree : SourceNode :=
  SourceNode.mk "Root" "DataModel" [] ""
    [SourceNode.mk "Foo" "ModuleScript" ["src/Foo.luau"] "" []]

/-- Example sourcemap ingestion function: parses exactly one contents string. -/
def exampleParse : String → Option SourceNode :=
  fun contents => if contents = "valid sourcemap" then some exampleTree else none

/-- Example configuration files: /a carries mode Strict, /a/b overrides with
mode Nonstrict and an alias. -/
def exampleConfigs : ConfigFiles :=
  fun d =>
    if d = ["a"] then some { mode := some Luau.Mode.Strict, aliases := [] }
    else if d = ["b", "a"] then
      some { mode := some Luau.Mode.Nonstrict, aliases := [("@std", "ProjectRoot/Lib")] }
    else none

/-- Claim C1: readSource precedence.  A managed document matching the module's
resolved real path wins over disk content; a managed document matching the
name itself wins when no real-path match exists; disk is read only when no
managed document matches; and when neither a managed document nor a disk file
exists the result is an explicit none, never an exception (the function is
total). -/
theorem readSource_overlay_precedence (s : WorkspaceFileResolver) (fs : FileSystem)
    (name realPath contentY : String) (doc : TextDocument) :
    (s.resolveToRealPath fs name = some realPath →
        s.getTextDocument realPath = some doc → fs realPath = some contentY →
        s.readSource fs name = some doc.content) ∧
      (s.getTextDocument name = some doc →
        ((s.resolveToRealPath fs name).bind fun rp => s.getTextDocument rp) = none →
        s.readSource fs name = some doc.content) ∧
      (s.resolveToRealPath fs name = some realPath →
        s.getTextDocument realPath = none → s.getTextDocument name = none →
        s.readSource fs name = fs realPath) ∧
      (s.resolveToRealPath fs name = none → s.getTextDocument name = none →
        s.readSource fs name = none) := by
  refine ⟨fun h1 h2 _ => ?_, fun h1 h2 => ?_, fun h1 h2 h3 => ?_, fun h1 h2 => ?_⟩
  · unfold WorkspaceFileResolver.readSource WorkspaceFileResolver.getTextDocumentFromModuleName
    rw [h1]
    simp [h2]
  · unfold WorkspaceFileResolver.readSource WorkspaceFileResolver.getTextDocumentFromModuleName
    rw [h2]
    simp [h1]
  · unfold WorkspaceFileResolver.readSource WorkspaceFileResolver.getTextDocumentFromModuleName
    rw [h1]
    simp [h2, h3]
  · unfold WorkspaceFileResolver.readSource WorkspaceFileResolver.getTextDocumentFromModuleName
    rw [h1]
    simp [h2]

/-- Claim C1, witness: the spec's concrete scenario — ProjectRoot/Foo backed by
src/Foo.luau, open with unsaved "return 1" while disk holds "return 2";
readSource returns the overlay content. -/
theorem readSource_overlay_precedence_witness :
    WorkspaceFileResolver.readSource exampleResolver exampleFs "ProjectRoot/Foo"
      = some "return 1" :=
  (readSource_overlay_precedence exampleResolver exampleFs "ProjectRoot/Foo"
    "src/Foo.luau" "return 2" exampleDoc).1 (by decide) (by decide) (by decide)

/-- Claim C3: getConfig is total — it always returns a configuration — and for
the default-constructed resolver it returns the fixed baseline (nonstrict
typing mode, empty alias table) whenever no configuration file exists anywhere
in the module's directory ancestry. -/
theorem getConfig_baseline (fs : FileSystem) (cfgs : ConfigFiles) (name : String)
    (h : ∀ ds, ds <:+ WorkspaceFileResolver.new.moduleDirectory fs name → cfgs ds = none) :
    WorkspaceFileResolver.new.getConfig fs cfgs name
      = { mode := Luau.Mode.Nonstrict, aliases := [] } := by
  unfold WorkspaceFileResolver.moduleDirectory at h
  unfold WorkspaceFileResolver.getConfig
  cases hr : WorkspaceFileResolver.new.resolveToRealPath fs name with
  | none => rfl
  | some realPath =>
    rw [hr] at h
    exact readConfigRec_of_no_configs _ _ _ h

/-- Claim C3, witness: a module on disk with no configuration file anywhere in
its ancestry resolves to the baseline configuration. -/
theorem getConfig_baseline_witness :
    WorkspaceFileResolver.new.getConfig exampleFs (fun _ => none) "src/Foo.luau"
      = { mode := Luau.Mode.Nonstrict, aliases := [] } :=
  getConfig_baseline exampleFs (fun _ => none) "src/Foo.luau" (fun _ _ => rfl)

/-- Claim C4: configuration inheritance merges the child's local layer over the
parent's resolved configuration field by field — a directory with no local
layer resolves to exactly its parent's configuration; with a local layer, the
mode is the child's when specified and the parent's otherwise, and each alias
is the child's entry when specified and the parent's otherwise. -/
theorem readConfigRec_merge (s : WorkspaceFileResolver) (cfgs : ConfigFiles)
    (seg : String) (ds : List String) :
    (cfgs (seg :: ds) = none →
        s.readConfigRec cfgs (seg :: ds) = s.readConfigRec cfgs ds) ∧
      (∀ layer, cfgs (seg :: ds) = some layer →
        (s.readConfigRec cfgs (seg :: ds)).mode
            = layer.mode.getD (s.readConfigRec cfgs ds).mode ∧
          ∀ key, List.lookup key (s.readConfigRec cfgs (seg :: ds)).aliases
            = (List.lookup key layer.aliases).or
                (List.lookup key (s.readConfigRec cfgs ds).aliases)) := by
  constructor
  · intro h
    conv_lhs => rw [WorkspaceFileResolver.readConfigRec]
    rw [h]
  · intro layer h
    have hstep : s.readConfigRec cfgs (seg :: ds)
        = mergeConfig (s.readConfigRec cfgs ds) layer := by
      conv_lhs => rw [WorkspaceFileResolver.readConfigRec]
      rw [h]
    rw [hstep]
    exact ⟨rfl, fun key => lookup_append _ _ key⟩

/-- Claim C4, witness: directory /a sets mode Strict, child /a/b overrides with
Nonstrict and adds an alias the parent does not have; the child's resolved
configuration takes the child's mode and the child's alias. -/
theorem readConfigRec_merge_witness :
    (WorkspaceFileResolver.new.readConfigRec exampleConfigs ["b", "a"]).mode
        = (some Luau.Mode.Nonstrict).getD
            ((WorkspaceFileResolver.new.readConfigRec exampleConfigs ["a"]).mode) ∧
      List.lookup "@std"
          (WorkspaceFileResolver.new.readConfigRec exampleConfigs ["b", "a"]).aliases
        = (List.lookup "@std" [("@std", "ProjectRoot/Lib")]).or
            (List.lookup "@std"
              (WorkspaceFileResolver.new.readConfigRec exampleConfigs ["a"]).aliases) :=
  ⟨((readConfigRec_merge WorkspaceFileResolver.new exampleConfigs "b" ["a"]).2
      { mode := some Luau.Mode.Nonstrict, aliases := [("@std", "ProjectRoot/Lib")] }
      (by decide)).1,
    ((readConfigRec_merge WorkspaceFileResolver.new exampleConfigs "b" ["a"]).2
      { mode := some Luau.Mode.Nonstrict, aliases := [("@std", "ProjectRoot/Lib")] }
      (by decide)).2 "@std"⟩

/-- Annotated Foo node as produced by a rebuild from exampleTree: the root is a
DataModel, so the root token is "game". -/
def exampleFooAnnotated : SourceNode :=
  SourceNode.mk "Foo" "ModuleScript" ["src/Foo.luau"] "game/Foo" []

/-- Annotated root node as produced by a rebuild from exampleTree. -/
def exampleRootAnnotated : SourceNode :=
  SourceNode.mk "Root" "DataModel" [] "game" [exampleFooAnnotated]

theorem allNodes_example :
    allNodes (annotate exampleTree (rootVirtualName exampleTree))
      = [exampleRootAnnotated, exampleFooAnnotated] := rfl

theorem exampleFooAnnotated_mem :
    exampleFooAnnotated ∈ allNodes (annotate exampleTree (rootVirtualName exampleTree)) := by
  rw [allNodes_example]
  exact List.mem_cons_of_mem _ (List.mem_cons_self _ _)

/-- Claim C5: after updateSourceMap on any prior state, both indices contain
exactly the nodes of the rebuilt tree — every node is found under its virtual
path and under each of its real paths, and every index entry comes from the
new tree (no ghost entries from any earlier sourcemap). -/
theorem updateSourceMap_index_exact
    (parseSourceMap : String → Option SourceNode) (s : WorkspaceFileResolver)
    (contents : String) (root : SourceNode)
    (hparse : parseSourceMap contents = some root)
    (hvnd : ((allNodes (annotate root (rootVirtualName root))).map SourceNode.virtualPath).Nodup)
    (hrnd : ((allNodes (annotate root (rootVirtualName root))).flatMap SourceNode.filePaths).Nodup) :
    (∀ n ∈ allNodes (annotate root (rootVirtualName root)),
      (WorkspaceFileResolver.updateSourceMap parseSourceMap s contents).getSourceNodeFromVirtualPath
          n.virtualPath = some n ∧
        ∀ p ∈ n.filePaths,
          (WorkspaceFileResolver.updateSourceMap parseSourceMap s contents).getSourceNodeFromRealPath
            p = some n) ∧
      (∀ entry ∈ (WorkspaceFileResolver.updateSourceMap parseSourceMap s contents).virtualPathsToSourceNodes,
        entry.2 ∈ allNodes (annotate root (rootVirtualName root)) ∧ entry.1 = entry.2.virtualPath) ∧
      (∀ entry ∈ (WorkspaceFileResolver.updateSourceMap parseSourceMap s contents).realPathsToSourceNodes,
        entry.2 ∈ allNodes (annotate root (rootVirtualName root)) ∧ entry.1 ∈ entry.2.filePaths) := by
  refine ⟨fun n hn =>
      ⟨getSourceNodeFromVirtualPath_after_update parseSourceMap s contents root hparse hvnd n hn,
        fun p hp =>
          getSourceNodeFromRealPath_after_update parseSourceMap s contents root hparse hrnd n hn p hp⟩,
    fun entry he => ?_, fun entry he => ?_⟩
  · obtain ⟨e1, e2⟩ := entry
    rw [(updateSourceMap_indices parseSourceMap s contents root hparse).1] at he
    obtain ⟨n, hn, hev⟩ := List.mem_map.mp he
    injection hev with h1 h2
    subst h2
    subst h1
    exact ⟨hn, rfl⟩
  · obtain ⟨e1, e2⟩ := entry
    rw [(updateSourceMap_indices parseSourceMap s contents root hparse).2] at he
    obtain ⟨n, hn, hmem⟩ := List.mem_flatMap.mp he
    obtain ⟨p, hp, hev⟩ := List.mem_map.mp hmem
    injection hev with h1 h2
    subst h2
    subst h1
    exact ⟨hn, hp⟩

/-- Claim C5, witness: rebuilding from exampleTree indexes the Foo node under
its virtual path and its real path. -/
theorem updateSourceMap_index_exact_witness :
    (WorkspaceFileResolver.updateSourceMap exampleParse WorkspaceFileResolver.new
        "valid sourcemap").getSourceNodeFromVirtualPath "game/Foo" = some exampleFooAnnotated ∧
      (WorkspaceFileResolver.updateSourceMap exampleParse WorkspaceFileResolver.new
        "valid sourcemap").getSourceNodeFromRealPath "src/Foo.luau" = some exampleFooAnnotated := by
  have h := (updateSourceMap_index_exact exampleParse WorkspaceFileResolver.new
      "valid sourcemap" exampleTree rfl (by decide) (by decide)).1
      exampleFooAnnotated exampleFooAnnotated_mem
  exact ⟨h.1, h.2 "src/Foo.luau" (by decide)⟩

/-- Claim C2: for every node of the rebuilt tree carrying at least one real
backing path, resolveToVirtualPath inverts resolveToRealPath on its virtual
path (round-trip identity); for a structural-only node (no real path),
resolveToRealPath returns none. -/
theorem resolveToRealPath_roundTrip
    (parseSourceMap : String → Option SourceNode) (s : WorkspaceFileResolver)
    (fs : FileSystem) (contents : String) (root : SourceNode)
    (hparse : parseSourceMap contents = some root)
    (hvnd : ((allNodes (annotate root (rootVirtualName root))).map SourceNode.virtualPath).Nodup)
    (hrnd : ((allNodes (annotate root (rootVirtualName root))).flatMap SourceNode.filePaths).Nodup) :
    ∀ n ∈ allNodes (annotate root (rootVirtualName root)),
      (n.filePaths ≠ [] →
        ((WorkspaceFileResolver.updateSourceMap parseSourceMap s contents).resolveToRealPath
              fs n.virtualPath).bind
            (fun rp => (WorkspaceFileResolver.updateSourceMap parseSourceMap s
                contents).resolveToVirtualPath rp)
          = some n.virtualPath) ∧
      (n.filePaths = [] →
        (WorkspaceFileResolver.updateSourceMap parseSourceMap s contents).resolveToRealPath
          fs n.virtualPath = none) := by
  intro n hn
  have hvirt := isVirtualPath_of_mem_annotate root n hn
  have hlook := getSourceNodeFromVirtualPath_after_update parseSourceMap s contents root
    hparse hvnd n hn
  have hbase : (WorkspaceFileResolver.updateSourceMap parseSourceMap s
      contents).resolveToRealPath fs n.virtualPath
      = WorkspaceFileResolver.getRealPathFromSourceNode n := by
    unfold WorkspaceFileResolver.resolveToRealPath
    rw [hvirt, hlook]
    simp
  constructor
  · intro hne
    obtain ⟨p, ps, hfp⟩ : ∃ p ps, n.filePaths = p :: ps := by
      cases hcase : n.filePaths with
      | nil => exact absurd hcase hne
      | cons p ps => exact ⟨p, ps, rfl⟩
    have hp : p ∈ n.filePaths := by
      rw [hfp]
      exact List.mem_cons_self p ps
    have hreal : (WorkspaceFileResolver.updateSourceMap parseSourceMap s
        contents).resolveToRealPath fs n.virtualPath = some p := by
      rw [hbase]
      unfold WorkspaceFileResolver.getRealPathFromSourceNode
      rw [hfp]
      rfl
    rw [hreal]
    show (WorkspaceFileResolver.updateSourceMap parseSourceMap s
        contents).resolveToVirtualPath p = some n.virtualPath
    unfold WorkspaceFileResolver.resolveToVirtualPath
    rw [getSourceNodeFromRealPath_after_update parseSourceMap s contents root hparse hrnd
      n hn p hp]
    rfl
  · intro hnil
    rw [hbase]
    unfold WorkspaceFileResolver.getRealPathFromSourceNode
    rw [hnil]
    rfl

/-- Claim C2, witness: the round trip on the Foo node's virtual path returns
that virtual path. -/
theorem resolveToRealPath_roundTrip_witness :
    ((WorkspaceFileResolver.updateSourceMap exampleParse WorkspaceFileResolver.new
          "valid sourcemap").resolveToRealPath exampleFs "game/Foo").bind
        (fun rp => (WorkspaceFileResolver.updateSourceMap exampleParse
            WorkspaceFileResolver.new "valid sourcemap").resolveToVirtualPath rp)
      = some "game/Foo" :=
  ((resolveToRealPath_roundTrip exampleParse WorkspaceFileResolver.new exampleFs
      "valid sourcemap" exampleTree rfl (by decide) (by decide))
    exampleFooAnnotated exampleFooAnnotated_mem).1 (by decide)

/-- Claim C7: after a rebuild, getModuleName maps each real path of a node of
the sourcemap tree to that node's virtual path, and returns any uri outside
the tree's real paths verbatim. -/
theorem getModuleName_virtual_or_verbatim
    (parseSourceMap : String → Option SourceNode) (s : WorkspaceFileResolver)
    (contents : String) (root : SourceNode)
    (hparse : parseSourceMap contents = some root)
    (hrnd : ((allNodes (annotate root (rootVirtualName root))).flatMap SourceNode.filePaths).Nodup) :
    (∀ n ∈ allNodes (annotate root (rootVirtualName root)), ∀ p ∈ n.filePaths,
      (WorkspaceFileResolver.updateSourceMap parseSourceMap s contents).getModuleName p
        = n.virtualPath) ∧
      (∀ uri, (∀ n ∈ allNodes (annotate root (rootVirtualName root)), uri ∉ n.filePaths) →
        (WorkspaceFileResolver.updateSourceMap parseSourceMap s contents).getModuleName uri
          = uri) := by
  constructor
  · intro n hn p hp
    unfold WorkspaceFileResolver.getModuleName
    rw [getSourceNodeFromRealPath_after_update parseSourceMap s contents root hparse hrnd
      n hn p hp]
    rfl
  · intro uri huri
    unfold WorkspaceFileResolver.getModuleName
    have hnone : (WorkspaceFileResolver.updateSourceMap parseSourceMap s
        contents).getSourceNodeFromRealPath uri = none := by
      unfold WorkspaceFileResolver.getSourceNodeFromRealPath
      rw [(updateSourceMap_indices parseSourceMap s contents root hparse).2]
      apply lookup_eq_none_of_not_mem_keys
      rw [real_keys]
      intro hmem
      obtain ⟨n, hn, hp⟩ := List.mem_flatMap.mp hmem
      exact huri n hn hp
    rw [hnone]

/-- Claim C7, witness: the uri of src/Foo.luau maps to the virtual module name
game/Foo, and a uri outside the sourcemap maps to itself. -/
theorem getModuleName_virtual_or_verbatim_witness :
    (WorkspaceFileResolver.updateSourceMap exampleParse WorkspaceFileResolver.new
        "valid sourcemap").getModuleName "src/Foo.luau" = "game/Foo" ∧
      (WorkspaceFileResolver.updateSourceMap exampleParse WorkspaceFileResolver.new
        "valid sourcemap").getModuleName "scratch/Other.luau" = "scratch/Other.luau" := by
  constructor
  · exact (getModuleName_virtual_or_verbatim exampleParse WorkspaceFileResolver.new
      "valid sourcemap" exampleTree rfl (by decide)).1
      exampleFooAnnotated exampleFooAnnotated_mem "src/Foo.luau" (by decide)
  · refine (getModuleName_virtual_or_verbatim exampleParse WorkspaceFileResolver.new
      "valid sourcemap" exampleTree rfl (by decide)).2 "scratch/Other.luau" ?_
    intro n hn
    rw [allNodes_example] at hn
    rcases List.mem_cons.mp hn with rfl | hn2
    · decide
    · rcases List.mem_cons.mp hn2 with rfl | hn3
      · decide
      · cases hn3
